import Mathlib

/-
Verification of the sales-order domain model (TypeScript sources under
src/sales/domain/model and src/shared/domain/model) against its
natural-language specification.

Shallow embedding conventions:
- TypeScript `number` is modelled as `ℚ` (the repository uses only
  exact decimal arithmetic: additions, multiplications, comparisons).
- A method that can `throw` is modelled as a function into
  `Except DomainError _`; each `DomainError` constructor corresponds to
  one `throw` site in the source and carries the data interpolated into
  that site's message.
- Mutating methods take the receiver and return the updated receiver on
  success; in the source every `throw` occurs before any field write, so
  on failure the receiver is unchanged.
- `crypto.randomUUID()` is nondeterministic; the embedding takes the
  freshly generated identifier as an explicit argument.
- `DateTime` handling is excluded from the core by the specification
  (§1, §6: external timestamp provider), so the `orderedAt` field is not
  modelled; no claim mentions it.
-/

namespace SalesDomain

/-- The four lifecycle states of a sales order
(`SalesOrderState` union type, sales-order.ts line 10). -/
inductive SalesOrderState where
  | PENDING
  | CONFIRMED
  | SHIPPED
  | CANCELED
deriving DecidableEq, Repr

/-- One constructor per `throw` site in the embedded sources, carrying the
data interpolated into that site's error message. -/
inductive DomainError where
  /-- money.ts: "Amount cannot be negative: {amount}" (Money constructor). -/
  | amountNegative (amount : ℚ)
  /-- money.ts: "Cannot add amounts with different currencies: {c1} and \x7bc2}" (Money.add). -/
  | currencyMismatch (c1 c2 : String)
  /-- money.ts: "Factor cannot be negative: {factor}" (Money.multiply). -/
  | factorNegative (factor : ℚ)
  /-- sales-order-item.ts: "Quantity must be greater than zero: {q}" (item constructor). -/
  | itemQuantityNotPositive (q : ℚ)
  /-- sales-order.ts: "Customer ID cannot be empty: {id}" (order constructor). -/
  | customerIdEmpty (id : String)
  /-- sales-order.ts: "Cannot add items to an order that is {state}" (addItem). -/
  | cannotAddItems (state : SalesOrderState)
  /-- sales-order.ts: "Product ID cannot be empty" (addItem). -/
  | productIdEmpty
  /-- sales-order.ts: "Quantity must be greater than zero" (addItem). -/
  | quantityNotPositive
  /-- sales-order.ts: "Unit price amount cannot be negative" (addItem). -/
  | unitPriceNegative
  /-- sales-order.ts: "Cannot confirm an order that is {state}" (confirm). -/
  | cannotConfirm (state : SalesOrderState)
  /-- sales-order.ts: "Cannot ship an order that is {state}" (ship). -/
  | cannotShip (state : SalesOrderState)
  /-- sales-order.ts: "Cannot cancel an order that is {state}" (cancel). -/
  | cannotCancel (state : SalesOrderState)
  /-- Spec §4.4 / §7 error kind InvalidFormat for a malformed currency code;
  no corresponding throw site exists in currency.ts. -/
  | invalidFormat (code : String)
deriving DecidableEq, Repr

/-- `Currency` value object (currency.ts). Its only field is the code. -/
structure Currency where
  code : String
deriving DecidableEq, Repr

/-- The runtime body of the `Currency` constructor (currency.ts lines 41-43):
`this._code = code;` with no check. The 3-uppercase-letter shape is imposed
only by the static type `CurrencyCode`, which is erased at runtime. -/
def Currency.ofCode (code : String) : Currency :=
  { code := code }

/-- The static type `CurrencyCode` (currency.ts line 29) as a runtime
predicate: exactly three characters, each an uppercase letter A-Z. -/
def isCurrencyCodeShaped (s : String) : Bool :=
  s.length = 3 && s.toList.all (fun c => 'A' ≤ c && c ≤ 'Z')

/-- Modelled from the spec (§4.4), for comparison with `Currency.ofCode`:
a constructor that "fails with InvalidFormat" at runtime unless the code is a
3-character uppercase alphabetic string. No such runtime check exists in
currency.ts. -/
def specCurrencyConstructor (code : String) : Except DomainError Currency :=
  if isCurrencyCodeShaped code then .ok { code := code }
  else .error (.invalidFormat code)

/-- `Money` value object (money.ts): an amount and a currency. -/
structure Money where
  amount : ℚ
  currency : Currency
deriving DecidableEq, Repr

/-- `Money` constructor (money.ts): throws when the amount is negative. -/
def Money.make (amount : ℚ) (currency : Currency) : Except DomainError Money :=
  if amount < 0 then .error (.amountNegative amount)
  else .ok { amount := amount, currency := currency }

/-- `Money.add` (money.ts): requires equal currency codes, then builds a new
`Money` from the summed amounts via the validating constructor. -/
def Money.add (m other : Money) : Except DomainError Money :=
  if m.currency.code ≠ other.currency.code then
    .error (.currencyMismatch m.currency.code other.currency.code)
  else
    Money.make (m.amount + other.amount) m.currency

/-- `Money.multiply` (money.ts): requires a non-negative factor, then builds a
new `Money` from the scaled amount via the validating constructor. -/
def Money.multiply (m : Money) (factor : ℚ) : Except DomainError Money :=
  if factor < 0 then .error (.factorNegative factor)
  else
    Money.make (m.amount * factor) m.currency

/-- `ProductId` value object (product-id.ts). -/
structure ProductId where
  id : String
deriving DecidableEq, Repr

/-- `ProductId` constructor (product-id.ts lines 21-23):
`this._id = id ?? crypto.randomUUID();`. `??` substitutes the generated
UUID only for a missing (nullish) argument, never for an empty string.
The generated UUID is passed in as `freshUuid`. -/
def ProductId.make (id : Option String) (freshUuid : String) : ProductId :=
  { id := id.getD freshUuid }

/-- `SalesOrderItem` entity (sales-order-item.ts). -/
structure SalesOrderItem where
  orderId : String
  itemId : String
  productId : ProductId
  quantity : ℚ
  unitPrice : Money
deriving DecidableEq, Repr

/-- `SalesOrderItem` constructor (sales-order-item.ts): throws when the
quantity is not positive; the generated item UUID is passed as `freshItemId`. -/
def SalesOrderItem.make (orderId freshItemId : String) (productId : ProductId)
    (quantity : ℚ) (unitPrice : Money) : Except DomainError SalesOrderItem :=
  if quantity ≤ 0 then .error (.itemQuantityNotPositive quantity)
  else .ok { orderId := orderId, itemId := freshItemId, productId := productId,
             quantity := quantity, unitPrice := unitPrice }

/-- `SalesOrderItem.calculateItemTotal` (sales-order-item.ts lines 78-80):
`new Money(this._unitPrice.amount * this._quantity, this._unitPrice.currency)`. -/
def SalesOrderItem.calculateItemTotal (it : SalesOrderItem) : Except DomainError Money :=
  Money.make (it.unitPrice.amount * it.quantity) it.unitPrice.currency

/-- `SalesOrder` aggregate root (sales-order.ts). The `orderedAt` timestamp
is excluded from the core by the spec and not modelled. -/
structure SalesOrder where
  customerId : String
  id : String
  items : List SalesOrderItem
  currency : Currency
  state : SalesOrderState
deriving DecidableEq, Repr

/-- JavaScript `String.prototype.trim` on the character list: strip leading
and trailing whitespace. (Defined structurally so that concrete instances
evaluate; Lean's own `String.trim` is defined by well-founded recursion.) -/
def jsTrim (s : String) : String :=
  ⟨((s.data.dropWhile Char.isWhitespace).reverse.dropWhile Char.isWhitespace).reverse⟩

/-- `SalesOrder` constructor (sales-order.ts lines 49-58): rejects a blank
customer id, generates the order id (passed as `freshUuid`), starts with no
items in state PENDING. -/
def SalesOrder.make (customerId freshUuid : String) (currency : Currency) :
    Except DomainError SalesOrder :=
  if customerId = "" || jsTrim customerId = "" then
    .error (.customerIdEmpty customerId)
  else
    .ok { customerId := customerId, id := freshUuid, items := [],
          currency := currency, state := .PENDING }

/-- `SalesOrder.canAddItems` (sales-order.ts lines 63-65):
`state !== 'CANCELED' && state !== 'SHIPPED'`. -/
def SalesOrder.canAddItems (o : SalesOrder) : Bool :=
  o.state ≠ SalesOrderState.CANCELED && o.state ≠ SalesOrderState.SHIPPED

/-- The public raw state setter (sales-order.ts line 80):
`public set state(newState: SalesOrderState) { this._state = newState; }`. -/
def SalesOrder.setStateRaw (o : SalesOrder) (newState : SalesOrderState) : SalesOrder :=
  { o with state := newState }

/-- `SalesOrder.addItem` (sales-order.ts lines 93-105), statement for
statement: state gate, blank-product-id check, quantity check, unit-price
check, then `new Money`, `new SalesOrderItem`, `items.push`. The generated
item UUID is passed as `freshItemId`. -/
def SalesOrder.addItem (o : SalesOrder) (freshItemId : String) (productId : ProductId)
    (quantity unitPriceAmount : ℚ) : Except DomainError SalesOrder :=
  if !o.canAddItems then .error (.cannotAddItems o.state)
  else if jsTrim productId.id = "" then .error .productIdEmpty
  else if quantity ≤ 0 then .error .quantityNotPositive
  else if unitPriceAmount < 0 then .error .unitPriceNegative
  else
    match Money.make unitPriceAmount o.currency with
    | .error e => .error e
    | .ok unitPrice =>
      match SalesOrderItem.make o.id freshItemId productId quantity unitPrice with
      | .error e => .error e
      | .ok item => .ok { o with items := o.items ++ [item] }

/-- Mutation-visible form of `addItem`: the outcome together with the order
as it stands after the call. In the source, every `throw` in `addItem`
precedes the single mutating statement (`this._items.push(item)`), so on
failure the post-call order is the original one. -/
def SalesOrder.addItemPost (o : SalesOrder) (freshItemId : String) (productId : ProductId)
    (quantity unitPriceAmount : ℚ) : Except DomainError Unit × SalesOrder :=
  match o.addItem freshItemId productId quantity unitPriceAmount with
  | .ok o2 => (.ok (), o2)
  | .error e => (.error e, o)

/-- The reducer of `calculateTotalAmount`:
`(total, item) => total.add(item.calculateItemTotal())`, with a thrown
exception propagating out of the whole `reduce`. -/
def totalStep (total : Except DomainError Money) (item : SalesOrderItem) :
    Except DomainError Money :=
  match total with
  | .error e => .error e
  | .ok t =>
    match item.calculateItemTotal with
    | .error e => .error e
    | .ok itemTotal => t.add itemTotal

/-- `SalesOrder.calculateTotalAmount` (sales-order.ts lines 111-114):
`items.reduce((total, item) => total.add(item.calculateItemTotal()), new Money(0, currency))`. -/
def SalesOrder.calculateTotalAmount (o : SalesOrder) : Except DomainError Money :=
  o.items.foldl totalStep (Money.make 0 o.currency)

/-- `SalesOrder.confirm` (sales-order.ts lines 128-131). -/
def SalesOrder.confirm (o : SalesOrder) : Except DomainError SalesOrder :=
  if o.state = SalesOrderState.PENDING then .ok { o with state := .CONFIRMED }
  else .error (.cannotConfirm o.state)

/-- `SalesOrder.ship` (sales-order.ts lines 137-140). -/
def SalesOrder.ship (o : SalesOrder) : Except DomainError SalesOrder :=
  if o.state = SalesOrderState.CONFIRMED then .ok { o with state := .SHIPPED }
  else .error (.cannotShip o.state)

/-- `SalesOrder.cancel` (sales-order.ts lines 146-150): throws when the state
is PENDING or CANCELED, otherwise (CONFIRMED or SHIPPED) sets CANCELED. -/
def SalesOrder.cancel (o : SalesOrder) : Except DomainError SalesOrder :=
  if o.state = SalesOrderState.PENDING ∨ o.state = SalesOrderState.CANCELED then
    .error (.cannotCancel o.state)
  else .ok { o with state := .CANCELED }

/-- The §4.1 state machine of the spec (narrative reading, which §9 fixes as
authoritative): confirm PENDING→CONFIRMED, ship CONFIRMED→SHIPPED, cancel
from PENDING or CONFIRMED →CANCELED; no transition out of SHIPPED or
CANCELED. -/
def specAllowsTransition (a b : SalesOrderState) : Prop :=
  (a = .PENDING ∧ b = .CONFIRMED) ∨
  (a = .CONFIRMED ∧ b = .SHIPPED) ∨
  ((a = .PENDING ∨ a = .CONFIRMED) ∧ b = .CANCELED)

instance (a b : SalesOrderState) : Decidable (specAllowsTransition a b) := by
  unfold specAllowsTransition
  infer_instance

/-- Sample currency used by concrete instances below. -/
def usd : Currency := Currency.ofCode "USD"

/-- Sample currency with a different code. -/
def pen : Currency := Currency.ofCode "PEN"

/-- A concrete order in state PENDING with no items. -/
def pendingOrder : SalesOrder :=
  { customerId := "cust-1", id := "order-1", items := [], currency := usd,
    state := .PENDING }

/-- A concrete order in state CONFIRMED with no items. -/
def confirmedOrder : SalesOrder :=
  { pendingOrder with state := .CONFIRMED }

/-- A concrete order in state SHIPPED with no items. -/
def shippedOrder : SalesOrder :=
  { pendingOrder with state := .SHIPPED }

/-- A concrete order in state CANCELED with no items. -/
def canceledOrder : SalesOrder :=
  { pendingOrder with state := .CANCELED }

/-- C1: the claim states that cancel succeeds exactly from PENDING or
CONFIRMED and fails from SHIPPED or CANCELED. The source guard
(sales-order.ts lines 147-149) instead rejects PENDING and accepts SHIPPED:
on a PENDING order cancel throws "Cannot cancel an order that is PENDING",
and on a SHIPPED order cancel succeeds, moving the terminal state SHIPPED to
CANCELED. This theorem evaluates the embedded code at both failing inputs. -/
theorem cancel_rejects_pending_and_accepts_shipped :
    pendingOrder.cancel = .error (.cannotCancel .PENDING) ∧
    shippedOrder.cancel = .ok { shippedOrder with state := .CANCELED } := by
  constructor <;> rfl

/-- C2: confirm succeeds exactly from PENDING (→CONFIRMED) and ship succeeds
exactly from CONFIRMED (→SHIPPED); in every other state the operation fails
with an error carrying the current state, and the order (in particular its
state) is unchanged — the successful results differ from the receiver only in
the state field. -/
theorem confirm_and_ship_follow_state_machine (o : SalesOrder) :
    (o.state = SalesOrderState.PENDING →
      o.confirm = .ok { o with state := .CONFIRMED }) ∧
    (o.state ≠ SalesOrderState.PENDING →
      o.confirm = .error (.cannotConfirm o.state)) ∧
    (o.state = SalesOrderState.CONFIRMED →
      o.ship = .ok { o with state := .SHIPPED }) ∧
    (o.state ≠ SalesOrderState.CONFIRMED →
      o.ship = .error (.cannotShip o.state)) := by
  refine ⟨?_, ?_, ?_, ?_⟩ <;> intro h <;>
    simp [SalesOrder.confirm, SalesOrder.ship, h]

/-- Witness for C2 at concrete orders: confirming a PENDING order succeeds
and shipping a PENDING order fails citing PENDING. -/
theorem confirm_and_ship_witness :
    pendingOrder.confirm = .ok { pendingOrder with state := .CONFIRMED } ∧
    pendingOrder.ship = .error (.cannotShip .PENDING) :=
  ⟨(confirm_and_ship_follow_state_machine pendingOrder).1 rfl,
   (confirm_and_ship_follow_state_machine pendingOrder).2.2.2 (by decide)⟩

/-- C3: the claim states that the aggregate exposes no raw state setter and
every state change follows the §4.1 machine. The source exposes
`public set state` (sales-order.ts line 80), through which a SHIPPED order
can be set straight back to PENDING — a reverse transition the spec's §4.1
machine forbids. -/
theorem raw_state_setter_defeats_state_machine :
    (shippedOrder.setStateRaw .PENDING).state = SalesOrderState.PENDING ∧
    ¬ specAllowsTransition .SHIPPED .PENDING :=
  ⟨rfl, by decide⟩

/-- C4 counterexample: the claim states that runtime construction with "us"
or "USDX" fails with InvalidFormat. The runtime constructor body
(currency.ts lines 41-43) performs no check: it accepts "us" and "USDX"
verbatim, although the static shape predicate rejects them and the
spec-modelled checking constructor would fail. -/
theorem currency_constructor_accepts_malformed_codes :
    Currency.ofCode "us" = { code := "us" } ∧
    Currency.ofCode "USDX" = { code := "USDX" } ∧
    isCurrencyCodeShaped "us" = false ∧
    isCurrencyCodeShaped "USDX" = false ∧
    specCurrencyConstructor "us" = .error (.invalidFormat "us") := by
  have h : isCurrencyCodeShaped "us" = false := by decide
  refine ⟨rfl, rfl, h, by decide, by simp [specCurrencyConstructor, h]⟩

/-- C4 (amended): at runtime, Currency construction never fails: for every
string it stores the code verbatim; the 3-uppercase-letter format of
`CurrencyCode` is enforced only by the static type system, which is erased
at runtime. A code that does satisfy the static shape, such as "USD", is
likewise stored verbatim. -/
theorem currency_constructor_is_unchecked (code : String) :
    Currency.ofCode code = { code := code } ∧
    (Currency.ofCode code).code = code :=
  ⟨rfl, rfl⟩

/-- C10: ProductId construction never fails: a supplied string — empty and
whitespace-only strings included — is stored verbatim, and the freshly
generated identifier is used only when no argument is supplied. -/
theorem productId_constructor_total (s freshUuid : String) :
    (ProductId.make (some s) freshUuid).id = s ∧
    (ProductId.make none freshUuid).id = freshUuid ∧
    (ProductId.make (some "") freshUuid).id = "" ∧
    (ProductId.make (some "   ") freshUuid).id = "   " :=
  ⟨rfl, rfl, rfl, rfl⟩

/-- A product id whose string is whitespace only, hence blank after trim. -/
def blankPid : ProductId := { id := " " }

/-- A product id with a non-blank string. -/
def goodPid : ProductId := { id := "prod-1" }

/-- C5: addItem checks its failure conditions in priority order: a non-open
state (SHIPPED or CANCELED) is reported first regardless of the other
arguments; then a blank product identity; then a non-positive quantity; then
a negative unit price. In each conjunct the lower-priority arguments are
unconstrained, so a violated higher-priority condition determines the error. -/
theorem addItem_checks_in_priority_order (o : SalesOrder) (freshItemId : String)
    (productId : ProductId) (quantity unitPriceAmount : ℚ) :
    ((o.state = SalesOrderState.SHIPPED ∨ o.state = SalesOrderState.CANCELED) →
      o.addItem freshItemId productId quantity unitPriceAmount =
        .error (.cannotAddItems o.state)) ∧
    ((o.state = SalesOrderState.PENDING ∨ o.state = SalesOrderState.CONFIRMED) →
      jsTrim productId.id = "" →
      o.addItem freshItemId productId quantity unitPriceAmount =
        .error .productIdEmpty) ∧
    ((o.state = SalesOrderState.PENDING ∨ o.state = SalesOrderState.CONFIRMED) →
      jsTrim productId.id ≠ "" → quantity ≤ 0 →
      o.addItem freshItemId productId quantity unitPriceAmount =
        .error .quantityNotPositive) ∧
    ((o.state = SalesOrderState.PENDING ∨ o.state = SalesOrderState.CONFIRMED) →
      jsTrim productId.id ≠ "" → 0 < quantity → unitPriceAmount < 0 →
      o.addItem freshItemId productId quantity unitPriceAmount =
        .error .unitPriceNegative) := by
  refine ⟨?_, ?_, ?_, ?_⟩
  · rintro (h | h) <;> simp [SalesOrder.addItem, SalesOrder.canAddItems, h]
  · rintro (h | h) htrim <;>
      simp [SalesOrder.addItem, SalesOrder.canAddItems, h, htrim]
  · rintro (h | h) htrim hq <;>
      simp [SalesOrder.addItem, SalesOrder.canAddItems, h, htrim, hq]
  · rintro (h | h) htrim hq hp <;>
    · have hq2 : ¬ quantity ≤ 0 := not_le.mpr hq
      simp [SalesOrder.addItem, SalesOrder.canAddItems, h, htrim, hq2, hp]

/-- Witness for C5: each priority level exercised at concrete inputs; in the
first two cases the later conditions are violated simultaneously, yet the
highest-priority error is the one reported. -/
theorem addItem_priority_witness :
    shippedOrder.addItem "item-1" blankPid (-1) (-5) =
      .error (.cannotAddItems .SHIPPED) ∧
    pendingOrder.addItem "item-1" blankPid (-1) (-5) = .error .productIdEmpty ∧
    pendingOrder.addItem "item-1" goodPid 0 (-5) = .error .quantityNotPositive ∧
    pendingOrder.addItem "item-1" goodPid 2 (-5) = .error .unitPriceNegative :=
  ⟨(addItem_checks_in_priority_order shippedOrder "item-1" blankPid (-1) (-5)).1
      (Or.inl rfl),
   (addItem_checks_in_priority_order pendingOrder "item-1" blankPid (-1) (-5)).2.1
      (Or.inl rfl) (by decide),
   (addItem_checks_in_priority_order pendingOrder "item-1" goodPid 0 (-5)).2.2.1
      (Or.inl rfl) (by decide) (by norm_num),
   (addItem_checks_in_priority_order pendingOrder "item-1" goodPid 2 (-5)).2.2.2
      (Or.inl rfl) (by decide) (by norm_num) (by norm_num)⟩

/-- C6: in SHIPPED or CANCELED state addItem fails with AddItemNotAllowed
and the post-call order is unchanged; in PENDING or CONFIRMED state with
valid inputs it appends exactly one item (built from the order's id and
currency); every successful call grows the item count by exactly one; and
every failure leaves the post-call order equal to the original. -/
theorem addItem_appends_or_leaves_unchanged (o : SalesOrder) (freshItemId : String)
    (productId : ProductId) (quantity unitPriceAmount : ℚ) :
    ((o.state = SalesOrderState.SHIPPED ∨ o.state = SalesOrderState.CANCELED) →
      o.addItemPost freshItemId productId quantity unitPriceAmount =
        (.error (.cannotAddItems o.state), o)) ∧
    ((o.state = SalesOrderState.PENDING ∨ o.state = SalesOrderState.CONFIRMED) →
      jsTrim productId.id ≠ "" → 0 < quantity → 0 ≤ unitPriceAmount →
      o.addItem freshItemId productId quantity unitPriceAmount =
        .ok { o with items := o.items ++
          [{ orderId := o.id, itemId := freshItemId, productId := productId,
             quantity := quantity,
             unitPrice := { amount := unitPriceAmount, currency := o.currency } }] }) ∧
    (∀ o2, o.addItem freshItemId productId quantity unitPriceAmount = .ok o2 →
      o2.items.length = o.items.length + 1) ∧
    (∀ e, o.addItem freshItemId productId quantity unitPriceAmount = .error e →
      o.addItemPost freshItemId productId quantity unitPriceAmount = (.error e, o)) := by
  refine ⟨?_, ?_, ?_, ?_⟩
  · rintro (h | h) <;>
      simp [SalesOrder.addItemPost, SalesOrder.addItem, SalesOrder.canAddItems, h]
  · rintro (h | h) htrim hq hp <;>
    · have hq2 : ¬ quantity ≤ 0 := not_le.mpr hq
      have hp2 : ¬ unitPriceAmount < 0 := not_lt.mpr hp
      simp [SalesOrder.addItem, SalesOrder.canAddItems, Money.make,
        SalesOrderItem.make, h, htrim, hq2, hp2]
  · intro o2 h
    unfold SalesOrder.addItem at h
    repeat' split at h
    any_goals exact Except.noConfusion h
    cases h
    simp
  · intro e h
    simp [SalesOrder.addItemPost, h]

/-- Witness for C6: adding a valid item to a PENDING empty order yields the
one-item order (count grows from 0 to 1); addItem on a CANCELED order fails
and the post-call order is the original. -/
theorem addItem_effect_witness :
    pendingOrder.addItem "item-1" goodPid 2 100 =
      .ok { pendingOrder with items :=
        [{ orderId := "order-1", itemId := "item-1", productId := goodPid,
           quantity := 2, unitPrice := { amount := 100, currency := usd } }] } ∧
    canceledOrder.addItemPost "item-1" goodPid 2 100 =
      (.error (.cannotAddItems .CANCELED), canceledOrder) :=
  ⟨(addItem_appends_or_leaves_unchanged pendingOrder "item-1" goodPid 2 100).2.1
      (Or.inl rfl) (by decide) (by norm_num) (by norm_num),
   (addItem_appends_or_leaves_unchanged canceledOrder "item-1" goodPid 2 100).1
      (Or.inr rfl)⟩

/-- Inversion for a successful `Money` construction: the resulting value
stores the arguments verbatim and the amount was non-negative. -/
lemma money_make_ok_inv {a : ℚ} {c : Currency} {m : Money}
    (h : Money.make a c = .ok m) : m = { amount := a, currency := c } ∧ 0 ≤ a := by
  unfold Money.make at h
  split at h
  · exact Except.noConfusion h
  next hcond => exact ⟨((Except.ok.injEq _ _).mp h).symm, not_lt.mp hcond⟩

/-- Inversion for a successful `SalesOrderItem` construction: the resulting
item stores the arguments verbatim and the quantity was positive. -/
lemma salesOrderItem_make_ok_inv {orderId freshItemId : String}
    {productId : ProductId} {q : ℚ} {up : Money} {it : SalesOrderItem}
    (h : SalesOrderItem.make orderId freshItemId productId q up = .ok it) :
    it = { orderId := orderId, itemId := freshItemId, productId := productId,
           quantity := q, unitPrice := up } ∧ 0 < q := by
  unfold SalesOrderItem.make at h
  split at h
  · exact Except.noConfusion h
  next hcond => exact ⟨((Except.ok.injEq _ _).mp h).symm, not_le.mp hcond⟩

/-- The shape `addItem` guarantees for every item it ever stored: the unit
price carries the order's currency and a non-negative amount, and the
quantity is positive. This is the formal reading of "items all added through
addItem". -/
def SalesOrder.itemsWellFormed (o : SalesOrder) : Prop :=
  ∀ it ∈ o.items, it.unitPrice.currency = o.currency ∧
    0 ≤ it.unitPrice.amount ∧ 0 < it.quantity

/-- A freshly constructed order (no items) is trivially well-formed. -/
lemma make_itemsWellFormed {customerId freshUuid : String} {currency : Currency}
    {o : SalesOrder} (h : SalesOrder.make customerId freshUuid currency = .ok o) :
    o.itemsWellFormed := by
  unfold SalesOrder.make at h
  split at h
  · exact Except.noConfusion h
  · cases h
    intro it hit
    simp at hit

/-- `addItem` preserves well-formedness: the one item it appends has the
order's currency, a non-negative unit price, and a positive quantity. -/
lemma addItem_preserves_itemsWellFormed {o o2 : SalesOrder} {freshItemId : String}
    {productId : ProductId} {quantity unitPriceAmount : ℚ}
    (hw : o.itemsWellFormed)
    (h : o.addItem freshItemId productId quantity unitPriceAmount = .ok o2) :
    o2.itemsWellFormed := by
  unfold SalesOrder.addItem at h
  split at h
  · exact Except.noConfusion h
  split at h
  · exact Except.noConfusion h
  split at h
  · exact Except.noConfusion h
  split at h
  · exact Except.noConfusion h
  split at h
  next e hm => exact Except.noConfusion h
  next up hm =>
    split at h
    next e hi => exact Except.noConfusion h
    next newIt hi =>
      cases h
      obtain ⟨hit, hqpos⟩ := salesOrderItem_make_ok_inv hi
      obtain ⟨hup, hanonneg⟩ := money_make_ok_inv hm
      intro it hmem
      rcases List.mem_append.mp hmem with hold | hnew
      · exact hw it hold
      · have : it = newIt := by simpa using hnew
        subst this
        subst hit
        subst hup
        exact ⟨rfl, hanonneg, hqpos⟩

/-- The fold of `calculateTotalAmount`, computed: starting from a
non-negative accumulator in the order's currency, folding well-formed items
with `totalStep` adds up the item totals and never fails. -/
lemma totalStep_fold (cur : Currency) :
    ∀ (items : List SalesOrderItem),
      (∀ it ∈ items, it.unitPrice.currency = cur ∧
        0 ≤ it.unitPrice.amount ∧ 0 < it.quantity) →
      ∀ acc : ℚ, 0 ≤ acc →
        items.foldl totalStep (.ok { amount := acc, currency := cur }) =
          .ok { amount :=
                  acc + (items.map fun it => it.unitPrice.amount * it.quantity).sum,
                currency := cur } := by
  intro items
  induction items with
  | nil => intro hw acc hacc; simp
  | cons it rest ih =>
    intro hw acc hacc
    obtain ⟨hcur, hamt, hqty⟩ := hw it (List.mem_cons_self it rest)
    have hnn : 0 ≤ it.unitPrice.amount * it.quantity := mul_nonneg hamt hqty.le
    have hstep : totalStep (.ok { amount := acc, currency := cur }) it =
        .ok { amount := acc + it.unitPrice.amount * it.quantity, currency := cur } := by
      simp [totalStep, SalesOrderItem.calculateItemTotal, Money.make, Money.add,
        hcur, not_lt.mpr hnn, not_lt.mpr (add_nonneg hacc hnn)]
    rw [List.foldl_cons, hstep,
      ih (fun x hx => hw x (List.mem_cons_of_mem it hx)) _ (add_nonneg hacc hnn)]
    simp [add_assoc]

/-- C7: on an order whose items were all added through addItem (each unit
price carries the order's currency with a non-negative amount and a positive
quantity), calculateTotalAmount is a pure fold of the item totals (unit
price times quantity) starting from Money(0, order currency), and it never
fails. The embedding is a pure function of the order, so no mutation occurs. -/
theorem calculateTotalAmount_is_pure_fold (o : SalesOrder) (h : o.itemsWellFormed) :
    o.calculateTotalAmount =
      .ok { amount := (o.items.map fun it => it.unitPrice.amount * it.quantity).sum,
            currency := o.currency } := by
  unfold SalesOrder.itemsWellFormed at h
  unfold SalesOrder.calculateTotalAmount
  have h0 : Money.make 0 o.currency = .ok { amount := 0, currency := o.currency } := by
    simp [Money.make]
  rw [h0, totalStep_fold o.currency o.items h 0 le_rfl]
  simp

/-- A concrete line item: unit price 100 USD, quantity 2. -/
def item1 : SalesOrderItem :=
  { orderId := "order-1", itemId := "item-1", productId := goodPid,
    quantity := 2, unitPrice := { amount := 100, currency := usd } }

/-- A concrete line item: unit price 50 USD, quantity 20. -/
def item2 : SalesOrderItem :=
  { orderId := "order-1", itemId := "item-2", productId := goodPid,
    quantity := 20, unitPrice := { amount := 50, currency := usd } }

/-- A concrete USD order holding `item1` and `item2`. -/
def twoItemOrder : SalesOrder := { pendingOrder with items := [item1, item2] }

/-- Witness for C7: the order with items (100, qty 2) and (50, qty 20) in USD
totals Money(1200, USD); the order with no items totals Money(0, USD). -/
theorem calculateTotalAmount_witness :
    twoItemOrder.calculateTotalAmount = .ok { amount := 1200, currency := usd } ∧
    pendingOrder.calculateTotalAmount = .ok { amount := 0, currency := usd } := by
  constructor
  · have h := calculateTotalAmount_is_pure_fold twoItemOrder (by
      norm_num [SalesOrder.itemsWellFormed, twoItemOrder, item1, item2, pendingOrder])
    rw [h]
    norm_num [twoItemOrder, item1, item2, pendingOrder]
  · have h := calculateTotalAmount_is_pure_fold pendingOrder (by
      norm_num [SalesOrder.itemsWellFormed, pendingOrder])
    rw [h]
    simp [pendingOrder]

/-- C8: Money.add fails with CurrencyMismatch carrying both codes exactly
when the currency codes differ, and otherwise returns a new Money summing
the amounts in the receiver's currency. Both operands are Money values, so
their amounts are non-negative; the embedding is pure, so neither operand is
mutated. -/
theorem money_add_currency_discipline (m1 m2 : Money)
    (h1 : 0 ≤ m1.amount) (h2 : 0 ≤ m2.amount) :
    (m1.currency.code ≠ m2.currency.code →
      m1.add m2 = .error (.currencyMismatch m1.currency.code m2.currency.code)) ∧
    (m1.currency.code = m2.currency.code →
      m1.add m2 = .ok { amount := m1.amount + m2.amount, currency := m1.currency }) := by
  constructor
  · intro h
    simp [Money.add, h]
  · intro h
    have hs : ¬ (m1.amount + m2.amount < 0) := not_lt.mpr (add_nonneg h1 h2)
    simp [Money.add, Money.make, h, hs]

/-- 100 USD. -/
def money100 : Money := { amount := 100, currency := usd }

/-- 50 USD. -/
def money50 : Money := { amount := 50, currency := usd }

/-- 50 PEN. -/
def money50pen : Money := { amount := 50, currency := pen }

/-- Witness for C8: USD 100 + USD 50 = USD 150, while USD 100 + PEN 50 fails
with a CurrencyMismatch naming both codes. -/
theorem money_add_witness :
    money100.add money50 = .ok { amount := 150, currency := usd } ∧
    money100.add money50pen = .error (.currencyMismatch "USD" "PEN") := by
  constructor
  · have h := (money_add_currency_discipline money100 money50
      (by norm_num [money100]) (by norm_num [money50])).2 rfl
    rw [h]
    norm_num [money100, money50]
  · exact (money_add_currency_discipline money100 money50pen
      (by norm_num [money100]) (by norm_num [money50pen])).1 (by decide)

/-- C9: the amount ≥ 0 invariant. Construction with a negative amount fails
with InvalidArgument; multiply with a negative factor fails with
InvalidArgument; and every successful result — of construction, of add, and
of multiply — has a non-negative amount, so no operation ever produces a
Money with a negative amount. -/
theorem money_amount_nonneg_invariant :
    (∀ (a : ℚ) (c : Currency), a < 0 → Money.make a c = .error (.amountNegative a)) ∧
    (∀ (m : Money) (f : ℚ), f < 0 → m.multiply f = .error (.factorNegative f)) ∧
    (∀ (a : ℚ) (c : Currency) (m : Money), Money.make a c = .ok m → 0 ≤ m.amount) ∧
    (∀ (m1 m2 r : Money), m1.add m2 = .ok r → 0 ≤ r.amount) ∧
    (∀ (m : Money) (f : ℚ) (r : Money), m.multiply f = .ok r → 0 ≤ r.amount) := by
  refine ⟨?_, ?_, ?_, ?_, ?_⟩
  · intro a c h
    simp [Money.make, h]
  · intro m f h
    simp [Money.multiply, h]
  · intro a c m h
    obtain ⟨hm, ha⟩ := money_make_ok_inv h
    subst hm
    exact ha
  · intro m1 m2 r h
    unfold Money.add at h
    split at h
    · exact Except.noConfusion h
    · obtain ⟨hr, ha⟩ := money_make_ok_inv h
      subst hr
      exact ha
  · intro m f r h
    unfold Money.multiply at h
    split at h
    · exact Except.noConfusion h
    · obtain ⟨hr, ha⟩ := money_make_ok_inv h
      subst hr
      exact ha

/-- Witness for C9: constructing Money(-1, USD) fails, multiplying USD 100 by
-2 fails, and the successful results USD 100 + USD 50 and USD 100 × 3 have
non-negative amounts. -/
theorem money_nonneg_witness :
    Money.make (-1) usd = .error (.amountNegative (-1)) ∧
    money100.multiply (-2) = .error (.factorNegative (-2)) ∧
    (∀ r : Money, money100.add money50 = .ok r → 0 ≤ r.amount) ∧
    (∀ r : Money, money100.multiply 3 = .ok r → 0 ≤ r.amount) :=
  ⟨money_amount_nonneg_invariant.1 (-1) usd (by norm_num),
   money_amount_nonneg_invariant.2.1 money100 (-2) (by norm_num),
   fun r hr => money_amount_nonneg_invariant.2.2.2.1 money100 money50 r hr,
   fun r hr => money_amount_nonneg_invariant.2.2.2.2 money100 3 r hr⟩

end SalesDomain
